import Mathlib

/-!
Formal model of the AppDaemon app `ShutdownTimer` (src/apps/shutdown_timer.py).

The app is a one-instance countdown timer embedded in a home-automation host.
The host supplies entity state storage, an event bus, one-shot and repeating
schedulers, cancellation, existence checks, a `turn_off` service and logging.
The host itself is not part of the repository; its contract is modelled from
the specification (each such definition says so in its doc comment).  The
app's own methods (`start_timer`, `stop_timer`, `update_countdown`,
`shutdown`, `check_entities` and the entity validation done at
initialization) are translated from the Python source.

Modelling conventions:
* Time is measured in whole minutes as an `Int` (the code only ever adds
  whole minutes to `datetime.now()`).
* Every host interaction is recorded, most recent first, in a call trace
  (`Host.calls`), so that "publishes", "logs an error", "no host calls"
  become statements about the trace.
* Log messages that actually execute are recorded as tagged events, not as
  interpolated strings: no claim depends on the exact message text.
* Python exceptions are modelled by an `Option PyExc` component in the
  results of `start_timer` and `stop_timer`, holding the state and trace at
  the moment of the raise; code after the raise point is unreachable and is
  therefore absent from the model.  Three raises occur in the source:
  `float(None)` raises `TypeError`, which the `except ValueError` at line
  124 does not catch; `float` of a non-numeric string raises `ValueError`,
  which it does catch; and the f-strings at lines 132 and 154 read
  `self.shutdown_entity`, an attribute that is never assigned (`initialize`
  assigns `self.shutdown_entities`, line 84, and the AppDaemon base classes
  neither inject config keys as attributes nor define a `__getattr__`
  fallback), so evaluating either f-string raises `AttributeError` before
  the enclosing `self.log(...)` call happens.  In particular the arming
  tail of `start_timer` (lines 134–137: `run_at`, `set_state`,
  `run_minutely`) is dead code: line 132 raises first.
* A raise escaping a callback is recorded in the sticky `Sys.crashed` flag
  and the model conservatively freezes afterwards; every property proved
  here concerns the state already reached at the raise.
* The abstract Idle/Running state of the specification (§4.1) is carried as
  a ghost boolean `Sys.running`.  Because the countdown is never actually
  armed (line 132 raises first), no reachable state of the faithful model
  is ever Running.
-/

namespace SDT

/-- A Python value relevant to this app: `None`, a string, or a list of
strings (entity identifiers).  `get_state` returns `None` or a string;
`check_entities` receives strings or (by the buggy second call site) a whole
list as a single argument. -/
inductive PyVal where
  | none
  | str (s : String)
  | list (l : List String)
  deriving DecidableEq, Repr

/-- The Python exceptions this app can raise: `ValueError` from `float` of
a non-numeric string (caught at line 124), `TypeError` from `float(None)`
(not caught), and `AttributeError` from reading the never-assigned
`self.shutdown_entity` in the f-strings at lines 132 and 154 (not
caught). -/
inductive PyExc where
  | valueError
  | typeError
  | attributeError
  deriving DecidableEq, Repr

/-- Which app callback a scheduled timer is bound to. -/
inductive Callback where
  | shutdown
  | tick
  deriving DecidableEq, Repr

/-- An armed host timer: its cancellable handle, the callback it is bound
to, and (for a one-shot) its absolute due time, (for a repeating tick) the
time of its first firing, in minutes. -/
structure Timer where
  handle : Nat
  cb : Callback
  due : Int
  deriving DecidableEq, Repr

/-- Informational log events the app actually emits (tags for the
`self.log` calls that execute; the interpolated text is immaterial to the
claims).  The `self.log` calls at lines 132 and 154 never execute — their
f-string arguments raise `AttributeError` first — so only the per-entity
log of `shutdown` (line 174) remains. -/
inductive LogMsg where
  | shuttingDown (entity : String)
  deriving DecidableEq, Repr

/-- Error log events emitted by the app (tags for the `self.error` calls in
the source). -/
inductive ErrMsg where
  | convertFailed (v : PyVal)
  | entityNotFound (v : PyVal)
  deriving DecidableEq, Repr

/-- One host interaction, as recorded in the call trace. -/
inductive HostCall where
  | cancelTimer (h : Option Nat)
  | getState (entity : String)
  | runAt (cb : Callback) (due : Int) (handle : Nat)
  | runMinutely (cb : Callback) (firstDue : Int) (handle : Nat)
  | setState (entity : String) (value : String)
  | turnOff (entity : String)
  | logMsg (m : LogMsg)
  | logError (m : ErrMsg)
  | existsQuery (v : PyVal)
  deriving DecidableEq, Repr

/-- The host scheduler state plus the recorded call trace (most recent call
first).  `nextHandle` is the next fresh timer handle the host will hand
out; `oneShot` and `repeating` are the currently armed timers. -/
structure Host where
  nextHandle : Nat
  oneShot : List Timer
  repeating : List Timer
  calls : List HostCall
  deriving DecidableEq, Repr

/-- Record one host call in the trace. -/
def pushCall (c : HostCall) (h : Host) : Host :=
  { h with calls := c :: h.calls }

/-- Modelled from the spec: host cancellation — "Given a handle, stop its
future firing; safe to call on any handle including unknown/null."  The
armed timer with that handle (if any) is disarmed; cancelling `None` or an
already-fired handle changes no armed timer. -/
def cancel_timer (oh : Option Nat) (h : Host) : Host :=
  let h := pushCall (.cancelTimer oh) h
  match oh with
  | Option.none => h
  | some n =>
      { h with oneShot := h.oneShot.filter (fun t => t.handle != n),
               repeating := h.repeating.filter (fun t => t.handle != n) }

/-- Modelled from the spec: deferred one-shot scheduling — "Schedule a
callback to run at an absolute future timestamp; returns a cancellable
handle." -/
def run_at (cb : Callback) (due : Int) (h : Host) : Host × Nat :=
  let n := h.nextHandle
  (pushCall (.runAt cb due n)
    { h with nextHandle := n + 1, oneShot := ⟨n, cb, due⟩ :: h.oneShot }, n)

/-- Modelled from the spec: repeating scheduling — "Schedule a callback to
run every fixed period, starting at a specified offset; returns a
cancellable handle."  With `start=None`, as the source passes, "the first
tick is due one minute from now (not immediately)". -/
def run_minutely (cb : Callback) (now : Int) (h : Host) : Host × Nat :=
  let n := h.nextHandle
  (pushCall (.runMinutely cb (now + 1) n)
    { h with nextHandle := n + 1, repeating := ⟨n, cb, now + 1⟩ :: h.repeating }, n)

/-- Modelled from the spec: state write — set an entity's displayed state. -/
def set_state (e : String) (v : String) (h : Host) : Host :=
  pushCall (.setState e v) h

/-- Modelled from the spec: device action — invoke `turn_off` on an entity. -/
def turn_off (e : String) (h : Host) : Host :=
  pushCall (.turnOff e) h

/-- The static configuration of one instance, from `initialize`:
`number_entity` is the duration source, `sensor_entity` the display sink,
`shutdown_entities` the target entities. -/
structure Config where
  number_entity : String
  sensor_entity : String
  shutdown_entities : List String
  deriving DecidableEq, Repr

/-- The mutable attributes of the app instance: the handle of the running
shutdown timer, the handle of the countdown-update scheduler, and the
remaining minutes. -/
structure AppState where
  timer_handle : Option Nat
  update_countdown_handle : Option Nat
  shutdown_counter : Int
  deriving DecidableEq, Repr

/-- True when the character is an ASCII digit (codepoints 48–57). -/
def isDigitChar (c : Char) : Bool :=
  decide (48 ≤ c.toNat ∧ c.toNat ≤ 57)

/-- Numeric value of an ASCII digit character. -/
def charDigit (c : Char) : Nat :=
  c.toNat - 48

/-- Value of a big-endian digit list. -/
def natOfDigits (l : List Nat) : Nat :=
  l.foldl (fun a d => 10 * a + d) 0

/-- Splits the optional leading sign off a decimal literal. -/
def stripSign : List Char → Bool × List Char
  | '-' :: r => (true, r)
  | '+' :: r => (false, r)
  | r => (false, r)

/-- Parses the signless part of a decimal literal: integer digits, then
optionally a `.` and fraction digits, with at least one digit overall. -/
def parseDigitsDot (neg : Bool) (cs : List Char) :
    Option (Bool × Nat × List Nat) :=
  match cs.dropWhile isDigitChar with
  | [] =>
      if (cs.takeWhile isDigitChar).isEmpty then Option.none
      else some (neg, natOfDigits ((cs.takeWhile isDigitChar).map charDigit),
        [])
  | '.' :: fr =>
      if fr.all isDigitChar
          && !((cs.takeWhile isDigitChar).isEmpty && fr.isEmpty) then
        some (neg, natOfDigits ((cs.takeWhile isDigitChar).map charDigit),
          fr.map charDigit)
      else Option.none
  | _ => Option.none

/-- Models Python `float` parsing on the decimal-literal fragment the app's
duration source can hold: an optional sign, integer digits, and an optional
`.` followed by fraction digits, with at least one digit overall.  Returns
the sign, the integer part and the fraction digits.  Python's `float` also
accepts exponents, `inf`/`nan`, surrounding whitespace, underscores and
non-ASCII digits; those forms are outside the modelled fragment and are not
used by any claim. -/
def parseDecimal (s : String) : Option (Bool × Nat × List Nat) :=
  parseDigitsDot (stripSign s.toList).1 (stripSign s.toList).2

/-- Models `int(float(val))` from `start_timer` (line 122): `float` of
`None` (what `get_state` returns for a missing entity) raises `TypeError`;
`float` of a non-numeric string raises `ValueError`; for a decimal literal
the fraction digits are dropped and the signed integer part kept.
Dropping the fraction idealizes CPython, where `float` first rounds to the
nearest IEEE binary64 value and rounding can cross an integer boundary
(e.g. a 17-nines fraction rounds up) before `int` truncates; this
development exercises `pyIntFloat` only on small integer literals,
non-numeric strings and `None`, where the two semantics coincide.  The
fidelity of the exact fractional values is claim C10's subject and is not
relied on here. -/
def pyIntFloat (v : PyVal) : Except PyExc Int :=
  match v with
  | PyVal.none => .error .typeError
  | PyVal.list _ => .error .typeError
  | PyVal.str s =>
      match parseDecimal s with
      | Option.none => .error .valueError
      | some d => .ok (if d.1 then -(d.2.1 : Int) else (d.2.1 : Int))

/-- The display string `f"{n} min"`. -/
def displayMin (n : Int) : String :=
  toString n ++ " min"

/-- The cancellation prelude of `start_timer`: "if a timer is running,
cancel the timer and the update scheduler" — the guard is
`self.timer_handle != None`. -/
def afterCancel (st : AppState) (h : Host) : Host :=
  if st.timer_handle ≠ Option.none then
    cancel_timer st.update_countdown_handle (cancel_timer st.timer_handle h)
  else h

/-- The trace entries the cancellation prelude of `start_timer` produces
(most recent first). -/
def cancelCalls (st : AppState) : List HostCall :=
  if st.timer_handle = Option.none then []
  else [.cancelTimer st.update_countdown_handle, .cancelTimer st.timer_handle]

/-- Translation of `ShutdownTimer.start_timer`.  `now` is the current time
in minutes, `val` the value the host returns for `get_state(number_entity)`.
Returns the new app state, the new host state, and the exception the call
raises, if any — the state and trace are those at the moment of the raise.

In the `shutdown_minutes > 0` branch the source sets `shutdown_counter`
(line 129), computes `shutdown_time` (line 131) and then evaluates
`f"Shutdown of {self.shutdown_entity} at {shutdown_time}."` (line 132).
`self.shutdown_entity` is never assigned — `initialize` assigns
`self.shutdown_entities` (line 84) — so the f-string raises
`AttributeError` before `self.log` is called; the arming tail at lines
134–137 (`run_at`, `set_state`, `run_minutely`) is unreachable and so does
not appear here. -/
def start_timer (cfg : Config) (now : Int) (val : PyVal) (st : AppState)
    (h : Host) : AppState × Host × Option PyExc :=
  -- if a timer is running, cancel the timer and the update scheduler
  let h := afterCancel st h
  -- try to fetch the shutdown minutes
  let h := pushCall (.getState cfg.number_entity) h
  match pyIntFloat val with
  | .error .valueError =>
      -- shutdown_minutes = 0, and the error is logged; `0 > 0` then fails
      (st, pushCall (.logError (.convertFailed val)) h, Option.none)
  | .error e =>
      -- only ValueError is caught (line 124); anything else propagates
      (st, h, some e)
  | .ok m =>
      if m > 0 then
        -- line 129 sets the counter, line 131 computes the expiry time
        -- (unobservable), and line 132 then raises AttributeError
        let _stime := now + m
        ({ st with shutdown_counter := m }, h, some .attributeError)
      else (st, h, Option.none)

/-- Translation of `ShutdownTimer.stop_timer`.  The guarded branch cancels
the timer (line 149), publishes "off" (line 150), cancels the update
scheduler (line 151) and clears both handles (lines 152–153); the final
`self.log` (line 154) then evaluates the same never-assigned
`self.shutdown_entity` and raises `AttributeError` after those effects, so
no log event is recorded and the exception escapes. -/
def stop_timer (cfg : Config) (st : AppState) (h : Host) :
    AppState × Host × Option PyExc :=
  if st.timer_handle ≠ Option.none then
    let h := cancel_timer st.timer_handle h
    let h := set_state cfg.sensor_entity "off" h
    let h := cancel_timer st.update_countdown_handle h
    ({ st with timer_handle := Option.none,
               update_countdown_handle := Option.none }, h,
     some .attributeError)
  else (st, h, Option.none)

/-- Translation of `ShutdownTimer.update_countdown` (the once-per-minute
tick). -/
def update_countdown (cfg : Config) (st : AppState) (h : Host) :
    AppState × Host :=
  let st := { st with shutdown_counter := st.shutdown_counter - 1 }
  if st.shutdown_counter > 0 then
    (st, set_state cfg.sensor_entity (displayMin st.shutdown_counter) h)
  else
    (st, cancel_timer st.update_countdown_handle
           (set_state cfg.sensor_entity "off" h))

/-- Translation of `ShutdownTimer.shutdown`: log and `turn_off` each target
entity in order.  The app state is not touched. -/
def shutdown (cfg : Config) (st : AppState) (h : Host) : AppState × Host :=
  (st, cfg.shutdown_entities.foldl
    (fun h e => turn_off e (pushCall (.logMsg (.shuttingDown e)) h)) h)

/-- Translation of `ShutdownTimer.check_entities`: for each argument (as
passed, one `*args` slot each), query existence with the host and log an
error if it does not exist.  `ex` is the host's existence oracle. -/
def check_entities (ex : PyVal → Bool) (args : List PyVal) (h : Host) : Host :=
  args.foldl (fun h v =>
    let h := pushCall (.existsQuery v) h
    if ex v then h else pushCall (.logError (.entityNotFound v)) h) h

/-- The host state at startup: no timers armed, empty trace. -/
def initHost : Host :=
  ⟨0, [], [], []⟩

/-- The entity validation performed by `ShutdownTimer.initialize`, together
with the initial app state it establishes (`timer_handle = None`,
`update_countdown_handle = None`, `shutdown_counter = 0`).  Note the source
passes `number_entity` and `sensor_entity` as two separate arguments but
passes the whole `shutdown_entities` list as a single argument. -/
def initChecks (cfg : Config) (ex : PyVal → Bool) : AppState × Host :=
  (⟨Option.none, Option.none, 0⟩,
   check_entities ex [PyVal.list cfg.shutdown_entities]
     (check_entities ex [PyVal.str cfg.number_entity, PyVal.str cfg.sensor_entity]
       initHost))

/-- True when the duration value parses to a strictly positive number of
minutes (the condition under which `start_timer` arms the timers, and under
which the specification's abstract state machine enters `Running`). -/
def parsedPositive (val : PyVal) : Bool :=
  match pyIntFloat val with
  | .ok m => decide (0 < m)
  | .error _ => false

/-- The whole system: app attributes, host state, the specification's ghost
Idle/Running state, and whether an uncaught exception has escaped a
callback (after which the model freezes). -/
structure Sys where
  app : AppState
  host : Host
  running : Bool
  crashed : Bool
  deriving DecidableEq, Repr

/-- The externally triggered operations on one instance: the start event,
the stop event, the host firing the repeating tick with a given handle, and
the host firing the one-shot shutdown timer with a given handle.  Firing a
handle that is not armed is a no-op (the host only fires armed timers). -/
inductive Op where
  | start (now : Int) (val : PyVal)
  | stop
  | fireTick (hdl : Nat)
  | fireShutdown (hdl : Nat)
  deriving DecidableEq, Repr

/-- Whether some armed timer in the list carries the given handle. -/
def hasHandle (l : List Timer) (hdl : Nat) : Bool :=
  l.any (fun t => t.handle == hdl)

/-- One step of the system.  `start`/`stop` run the corresponding event
callbacks; `fireTick` runs `update_countdown` if the repeating tick with
that handle is armed (a repeating timer stays armed after firing);
`fireShutdown` disarms the one-shot with that handle and runs `shutdown`.
The ghost `running` field follows the specification's state machine:
`Running` after a start whose parsed duration is positive, `Idle` after any
other start, after stop, and after natural expiry. -/
def step (cfg : Config) (s : Sys) (op : Op) : Sys :=
  if s.crashed then s else
  match op with
  | .start now val =>
      let r := start_timer cfg now val s.app s.host
      match r.2.2 with
      | Option.none => ⟨r.1, r.2.1, parsedPositive val, false⟩
      | some _ => ⟨r.1, r.2.1, false, true⟩
  | .stop =>
      let r := stop_timer cfg s.app s.host
      match r.2.2 with
      | Option.none => ⟨r.1, r.2.1, false, false⟩
      | some _ => ⟨r.1, r.2.1, false, true⟩
  | .fireTick hdl =>
      if hasHandle s.host.repeating hdl then
        let r := update_countdown cfg s.app s.host
        ⟨r.1, r.2, s.running, false⟩
      else s
  | .fireShutdown hdl =>
      if hasHandle s.host.oneShot hdl then
        let h := { s.host with
                    oneShot := s.host.oneShot.filter (fun t => t.handle != hdl) }
        let r := shutdown cfg s.app h
        ⟨r.1, r.2, false, false⟩
      else s

/-- The system right after initialization (call trace taken as empty: the
claims only ever compare trace growth). -/
def initSys : Sys :=
  ⟨⟨Option.none, Option.none, 0⟩, initHost, false, false⟩

/-- The state reached from initialization by a sequence of operations. -/
def reach (cfg : Config) (ops : List Op) : Sys :=
  ops.foldl (step cfg) initSys

/-- The display values written to the display sink, most recent first. -/
def displayWrites (cfg : Config) (calls : List HostCall) : List String :=
  calls.filterMap (fun c =>
    match c with
    | .setState e v => if e == cfg.sensor_entity then some v else Option.none
    | _ => Option.none)

/-- The target of a `turn_off` call, if the call is one. -/
def turnOffTarget : HostCall → Option String
  | .turnOff e => some e
  | _ => Option.none

/-- True for the trace events that arm a timer. -/
def isArmCall : HostCall → Bool
  | .runAt _ _ _ => true
  | .runMinutely _ _ _ => true
  | _ => false

/-- How many arming calls (one-shot or repeating) the trace holds. -/
def armCount (calls : List HostCall) : Nat :=
  (calls.filter isArmCall).length

/-- True for the trace events that query entity existence. -/
def isExistsQuery : HostCall → Bool
  | .existsQuery _ => true
  | _ => false

/-- The trace entries (most recent first) that `shutdown` adds for a given
target-entity list. -/
def shutdownTrace : List String → List HostCall
  | [] => []
  | e :: es => shutdownTrace es ++ [.turnOff e, .logMsg (.shuttingDown e)]

/-- The reachable-state invariant of the faithful model.  Because
`start_timer` raises `AttributeError` at line 132 before its arming tail
(lines 134–137), no reachable state of the program ever assigns a timer
handle, arms a host timer, issues an arming call, or enters the Running
state: the instance is permanently quiescent. -/
structure Inv (s : Sys) : Prop where
  thNone : s.app.timer_handle = Option.none
  uhNone : s.app.update_countdown_handle = Option.none
  oneShotNil : s.host.oneShot = []
  repNil : s.host.repeating = []
  armZero : armCount s.host.calls = 0
  notRunning : s.running = false

/-- A concrete configuration used to instantiate the general theorems. -/
def cfgEx : Config :=
  ⟨"input_number.t", "sensor.t", ["switch.a", "light.b", "media.c"]⟩

/-! ### Bookkeeping lemmas about the host primitives -/

@[simp]
theorem pushCall_nextHandle (c : HostCall) (h : Host) :
    (pushCall c h).nextHandle = h.nextHandle := rfl

@[simp]
theorem pushCall_oneShot (c : HostCall) (h : Host) :
    (pushCall c h).oneShot = h.oneShot := rfl

@[simp]
theorem pushCall_repeating (c : HostCall) (h : Host) :
    (pushCall c h).repeating = h.repeating := rfl

@[simp]
theorem pushCall_calls (c : HostCall) (h : Host) :
    (pushCall c h).calls = c :: h.calls := rfl

@[simp]
theorem cancel_timer_nextHandle (oh : Option Nat) (h : Host) :
    (cancel_timer oh h).nextHandle = h.nextHandle := by
  cases oh <;> rfl

@[simp]
theorem cancel_timer_calls (oh : Option Nat) (h : Host) :
    (cancel_timer oh h).calls = .cancelTimer oh :: h.calls := by
  cases oh <;> rfl

theorem cancel_timer_oneShot (n : Nat) (h : Host) :
    (cancel_timer (some n) h).oneShot =
      h.oneShot.filter (fun t => t.handle != n) := rfl

theorem cancel_timer_repeating (n : Nat) (h : Host) :
    (cancel_timer (some n) h).repeating =
      h.repeating.filter (fun t => t.handle != n) := rfl

theorem cancel_timer_oneShot_nil (oh : Option Nat) (h : Host)
    (hX : h.oneShot = []) : (cancel_timer oh h).oneShot = [] := by
  cases oh <;> simp [cancel_timer, hX]

theorem cancel_timer_repeating_nil (oh : Option Nat) (h : Host)
    (hX : h.repeating = []) : (cancel_timer oh h).repeating = [] := by
  cases oh <;> simp [cancel_timer, hX]

theorem filter_owned_eq_nil (l : List Timer) (a : Nat)
    (h : ∀ t ∈ l, t.handle = a) :
    l.filter (fun t => t.handle != a) = [] := by
  rw [List.filter_eq_nil_iff]
  intro t ht
  simp [h t ht]

theorem filter_unowned_eq_self (l : List Timer) (a : Nat)
    (h : ∀ t ∈ l, t.handle ≠ a) :
    l.filter (fun t => t.handle != a) = l := by
  rw [List.filter_eq_self]
  intro t ht
  simp [h t ht]

theorem owned_nil {l : List Timer} {oh : Option Nat}
    (hOwn : ∀ t ∈ l, oh = some t.handle) (hn : oh = Option.none) :
    l = [] := by
  cases l with
  | nil => rfl
  | cons t ts =>
      have := hOwn t (by simp)
      rw [hn] at this
      cases this

/-! ### The cancellation prelude of `start_timer` -/

theorem afterCancel_nextHandle (st : AppState) (h : Host) :
    (afterCancel st h).nextHandle = h.nextHandle := by
  unfold afterCancel
  split <;> simp

theorem afterCancel_calls (st : AppState) (h : Host) :
    (afterCancel st h).calls = cancelCalls st ++ h.calls := by
  unfold afterCancel cancelCalls
  rcases hth : st.timer_handle with _ | a <;> simp [hth]

theorem afterCancel_oneShot (st : AppState) (h : Host)
    (hOne : ∀ t ∈ h.oneShot, st.timer_handle = some t.handle) :
    (afterCancel st h).oneShot = [] := by
  unfold afterCancel
  rcases hth : st.timer_handle with _ | a
  · simp only [hth, ne_eq, not_true_eq_false, if_false]
    exact owned_nil hOne hth
  · have h1 : (cancel_timer (some a) h).oneShot = [] := by
      rw [cancel_timer_oneShot]
      apply filter_owned_eq_nil
      intro t ht
      have := hOne t ht
      rw [hth] at this
      exact (Option.some.injEq _ _ ▸ this).symm
    simp only [hth, ne_eq, reduceCtorEq, not_false_eq_true, if_true]
    exact cancel_timer_oneShot_nil _ _ h1

theorem afterCancel_repeating (st : AppState) (h : Host)
    (hRep : ∀ t ∈ h.repeating, st.update_countdown_handle = some t.handle)
    (hTog : st.timer_handle = Option.none ↔
      st.update_countdown_handle = Option.none) :
    (afterCancel st h).repeating = [] := by
  unfold afterCancel
  rcases hth : st.timer_handle with _ | a
  · simp only [hth, ne_eq, not_true_eq_false, if_false]
    exact owned_nil hRep (hTog.mp hth)
  · rcases huh : st.update_countdown_handle with _ | b
    · have : st.timer_handle = Option.none := hTog.mpr huh
      rw [hth] at this
      cases this
    · simp only [hth, huh, ne_eq, reduceCtorEq, not_false_eq_true, if_true]
      rw [cancel_timer_repeating]
      apply filter_owned_eq_nil
      intro t ht
      have ht' : t ∈ h.repeating := by
        rw [cancel_timer_repeating] at ht
        exact List.mem_of_mem_filter ht
      have := hRep t ht'
      rw [huh] at this
      exact (Option.some.injEq _ _ ▸ this).symm

theorem host_eq_mk (X : Host) (n : Nat) (os rp : List Timer)
    (cs : List HostCall) (h1 : X.nextHandle = n) (h2 : X.oneShot = os)
    (h3 : X.repeating = rp) (h4 : X.calls = cs) : X = ⟨n, os, rp, cs⟩ := by
  obtain ⟨a, b, c, d⟩ := X
  subst h1 h2 h3 h4
  rfl

theorem displayWrites_append (cfg : Config) (x y : List HostCall) :
    displayWrites cfg (x ++ y) = displayWrites cfg x ++ displayWrites cfg y :=
  List.filterMap_append x y _

/-! ### Characterizations of the four operations -/

theorem forall_mem_of_nil {α : Type} {P : α → Prop} {l : List α}
    (h : l = []) : ∀ t ∈ l, P t := by
  intro t ht
  rw [h] at ht
  exact absurd ht (List.not_mem_nil t)

theorem start_timer_pos_raises (cfg : Config) (now : Int) (val : PyVal)
    (st : AppState) (h : Host) (m : Int)
    (hOne : ∀ t ∈ h.oneShot, st.timer_handle = some t.handle)
    (hRep : ∀ t ∈ h.repeating, st.update_countdown_handle = some t.handle)
    (hTog : st.timer_handle = Option.none ↔
      st.update_countdown_handle = Option.none)
    (hok : pyIntFloat val = .ok m) (hm : 0 < m) :
    start_timer cfg now val st h =
      ({ st with shutdown_counter := m },
       ⟨h.nextHandle, [], [],
        .getState cfg.number_entity :: (cancelCalls st ++ h.calls)⟩,
       some .attributeError) := by
  have hAC : afterCancel st h =
      ⟨h.nextHandle, [], [], cancelCalls st ++ h.calls⟩ :=
    host_eq_mk _ _ _ _ _ (afterCancel_nextHandle st h)
      (afterCancel_oneShot st h hOne) (afterCancel_repeating st h hRep hTog)
      (afterCancel_calls st h)
  unfold start_timer
  rw [hok, hAC]
  simp [pushCall, hm]

theorem start_timer_ok_nonpos (cfg : Config) (now : Int) (val : PyVal)
    (st : AppState) (h : Host) (m : Int)
    (hOne : ∀ t ∈ h.oneShot, st.timer_handle = some t.handle)
    (hRep : ∀ t ∈ h.repeating, st.update_countdown_handle = some t.handle)
    (hTog : st.timer_handle = Option.none ↔
      st.update_countdown_handle = Option.none)
    (hok : pyIntFloat val = .ok m) (hm : ¬ 0 < m) :
    start_timer cfg now val st h =
      (st,
       ⟨h.nextHandle, [], [],
        .getState cfg.number_entity :: (cancelCalls st ++ h.calls)⟩,
       Option.none) := by
  have hAC : afterCancel st h =
      ⟨h.nextHandle, [], [], cancelCalls st ++ h.calls⟩ :=
    host_eq_mk _ _ _ _ _ (afterCancel_nextHandle st h)
      (afterCancel_oneShot st h hOne) (afterCancel_repeating st h hRep hTog)
      (afterCancel_calls st h)
  unfold start_timer
  rw [hok, hAC]
  simp [pushCall, hm]

theorem start_timer_valueError (cfg : Config) (now : Int) (val : PyVal)
    (st : AppState) (h : Host)
    (hOne : ∀ t ∈ h.oneShot, st.timer_handle = some t.handle)
    (hRep : ∀ t ∈ h.repeating, st.update_countdown_handle = some t.handle)
    (hTog : st.timer_handle = Option.none ↔
      st.update_countdown_handle = Option.none)
    (hok : pyIntFloat val = .error .valueError) :
    start_timer cfg now val st h =
      (st,
       ⟨h.nextHandle, [], [],
        .logError (.convertFailed val) ::
          .getState cfg.number_entity :: (cancelCalls st ++ h.calls)⟩,
       Option.none) := by
  have hAC : afterCancel st h =
      ⟨h.nextHandle, [], [], cancelCalls st ++ h.calls⟩ :=
    host_eq_mk _ _ _ _ _ (afterCancel_nextHandle st h)
      (afterCancel_oneShot st h hOne) (afterCancel_repeating st h hRep hTog)
      (afterCancel_calls st h)
  unfold start_timer
  rw [hok, hAC]
  simp [pushCall]

theorem start_timer_typeError (cfg : Config) (now : Int) (val : PyVal)
    (st : AppState) (h : Host)
    (hOne : ∀ t ∈ h.oneShot, st.timer_handle = some t.handle)
    (hRep : ∀ t ∈ h.repeating, st.update_countdown_handle = some t.handle)
    (hTog : st.timer_handle = Option.none ↔
      st.update_countdown_handle = Option.none)
    (hok : pyIntFloat val = .error .typeError) :
    start_timer cfg now val st h =
      (st,
       ⟨h.nextHandle, [], [],
        .getState cfg.number_entity :: (cancelCalls st ++ h.calls)⟩,
       some .typeError) := by
  have hAC : afterCancel st h =
      ⟨h.nextHandle, [], [], cancelCalls st ++ h.calls⟩ :=
    host_eq_mk _ _ _ _ _ (afterCancel_nextHandle st h)
      (afterCancel_oneShot st h hOne) (afterCancel_repeating st h hRep hTog)
      (afterCancel_calls st h)
  unfold start_timer
  rw [hok, hAC]
  simp [pushCall]

theorem stop_timer_idle (cfg : Config) (st : AppState) (h : Host)
    (hth : st.timer_handle = Option.none) :
    stop_timer cfg st h = (st, h, Option.none) := by
  simp [stop_timer, hth]

theorem update_countdown_again (cfg : Config) (st : AppState) (h : Host)
    (hc : 0 < st.shutdown_counter - 1) :
    update_countdown cfg st h =
      ({ st with shutdown_counter := st.shutdown_counter - 1 },
       pushCall (.setState cfg.sensor_entity
         (displayMin (st.shutdown_counter - 1))) h) := by
  simp [update_countdown, set_state, hc]

theorem update_countdown_final (cfg : Config) (st : AppState) (h : Host)
    (hc : ¬ 0 < st.shutdown_counter - 1)
    (hRep : ∀ t ∈ h.repeating, st.update_countdown_handle = some t.handle)
    (hOneNe : ∀ t ∈ h.oneShot, st.update_countdown_handle ≠ some t.handle) :
    update_countdown cfg st h =
      ({ st with shutdown_counter := st.shutdown_counter - 1 },
       ⟨h.nextHandle, h.oneShot, [],
        .cancelTimer st.update_countdown_handle ::
          .setState cfg.sensor_entity "off" :: h.calls⟩) := by
  have hone : (cancel_timer st.update_countdown_handle
      (set_state cfg.sensor_entity "off" h)).oneShot = h.oneShot := by
    rcases huh : st.update_countdown_handle with _ | b
    · simp [cancel_timer, set_state]
    · rw [cancel_timer_oneShot]
      simp only [set_state, pushCall_oneShot]
      apply filter_unowned_eq_self
      intro t ht hcon
      exact hOneNe t ht (by rw [huh, hcon])
  have hrp : (cancel_timer st.update_countdown_handle
      (set_state cfg.sensor_entity "off" h)).repeating = [] := by
    rcases huh : st.update_countdown_handle with _ | b
    · have h0 : h.repeating = [] := owned_nil hRep huh
      simp [cancel_timer, set_state, h0]
    · rw [cancel_timer_repeating]
      simp only [set_state, pushCall_repeating]
      apply filter_owned_eq_nil
      intro t ht
      have hb := hRep t ht
      rw [huh] at hb
      exact (Option.some_inj.mp hb).symm
  have hfin : cancel_timer st.update_countdown_handle
      (set_state cfg.sensor_entity "off" h) =
      ⟨h.nextHandle, h.oneShot, [],
       .cancelTimer st.update_countdown_handle ::
         .setState cfg.sensor_entity "off" :: h.calls⟩ :=
    host_eq_mk _ _ _ _ _ (by simp [set_state]) hone hrp (by simp [set_state])
  unfold update_countdown
  simp only [gt_iff_lt, hc, if_false]
  rw [hfin]

theorem shutdown_fold (l : List String) (h : Host) :
    l.foldl (fun h e => turn_off e (pushCall (.logMsg (.shuttingDown e)) h)) h =
      ⟨h.nextHandle, h.oneShot, h.repeating, shutdownTrace l ++ h.calls⟩ := by
  induction l generalizing h with
  | nil => simp [shutdownTrace]
  | cons e es ih =>
      simp only [List.foldl_cons]
      rw [ih]
      simp [turn_off, shutdownTrace]

theorem shutdown_spec (cfg : Config) (st : AppState) (h : Host) :
    shutdown cfg st h =
      (st, ⟨h.nextHandle, h.oneShot, h.repeating,
        shutdownTrace cfg.shutdown_entities ++ h.calls⟩) := by
  unfold shutdown
  rw [shutdown_fold]

theorem shutdownTrace_turnOffs (l : List String) :
    (shutdownTrace l).filterMap turnOffTarget = l.reverse := by
  induction l with
  | nil => rfl
  | cons e es ih =>
      simp [shutdownTrace, List.filterMap_append, ih, turnOffTarget]

theorem shutdownTrace_noDisplay (cfg : Config) (l : List String) :
    displayWrites cfg (shutdownTrace l) = [] := by
  induction l with
  | nil => rfl
  | cons e es ih =>
      show displayWrites cfg (shutdownTrace es ++ _) = []
      rw [displayWrites_append, ih]
      rfl

/-! ### The reachable-state invariant -/

theorem parsedPositive_pos (val : PyVal) (m : Int)
    (hv : pyIntFloat val = .ok m) (hm : 0 < m) : parsedPositive val = true := by
  unfold parsedPositive
  rw [hv]
  simp [hm]

theorem parsedPositive_nonpos (val : PyVal) (m : Int)
    (hv : pyIntFloat val = .ok m) (hm : ¬ 0 < m) :
    parsedPositive val = false := by
  unfold parsedPositive
  rw [hv]
  simp [hm]

theorem parsedPositive_err (val : PyVal) (e : PyExc)
    (hv : pyIntFloat val = .error e) : parsedPositive val = false := by
  unfold parsedPositive
  rw [hv]

theorem step_crashed (cfg : Config) (s : Sys) (op : Op)
    (hcr : s.crashed = true) : step cfg s op = s := by
  unfold step
  rw [hcr]
  rfl

theorem step_start_ok (cfg : Config) (s : Sys) (now : Int) (val : PyVal)
    (hcr : s.crashed = false) (a : AppState) (h : Host)
    (hst : start_timer cfg now val s.app s.host = (a, h, Option.none)) :
    step cfg s (.start now val) = ⟨a, h, parsedPositive val, false⟩ := by
  unfold step
  rw [hcr]
  simp only [hst]
  rfl

theorem step_start_exc (cfg : Config) (s : Sys) (now : Int) (val : PyVal)
    (hcr : s.crashed = false) (a : AppState) (h : Host) (e : PyExc)
    (hst : start_timer cfg now val s.app s.host = (a, h, some e)) :
    step cfg s (.start now val) = ⟨a, h, false, true⟩ := by
  unfold step
  rw [hcr]
  simp only [hst]
  rfl

theorem step_stop_ok (cfg : Config) (s : Sys) (hcr : s.crashed = false)
    (a : AppState) (h : Host)
    (hst : stop_timer cfg s.app s.host = (a, h, Option.none)) :
    step cfg s .stop = ⟨a, h, false, false⟩ := by
  unfold step
  rw [hcr]
  simp only [hst]
  rfl

theorem step_stop_exc (cfg : Config) (s : Sys) (hcr : s.crashed = false)
    (a : AppState) (h : Host) (e : PyExc)
    (hst : stop_timer cfg s.app s.host = (a, h, some e)) :
    step cfg s .stop = ⟨a, h, false, true⟩ := by
  unfold step
  rw [hcr]
  simp only [hst]
  rfl

theorem step_fireTick_armed (cfg : Config) (s : Sys) (hdl : Nat)
    (hcr : s.crashed = false) (hh : hasHandle s.host.repeating hdl = true)
    (a : AppState) (h : Host)
    (hst : update_countdown cfg s.app s.host = (a, h)) :
    step cfg s (.fireTick hdl) = ⟨a, h, s.running, false⟩ := by
  unfold step
  rw [hcr]
  simp only [hh, hst]
  rfl

theorem step_fireTick_unarmed (cfg : Config) (s : Sys) (hdl : Nat)
    (hh : hasHandle s.host.repeating hdl = false) :
    step cfg s (.fireTick hdl) = s := by
  rcases hcr : s.crashed with _ | _
  · unfold step
    rw [hcr]
    simp only [hh]
    rfl
  · exact step_crashed cfg s _ hcr

theorem step_fireShutdown_armed (cfg : Config) (s : Sys) (hdl : Nat)
    (hcr : s.crashed = false) (hh : hasHandle s.host.oneShot hdl = true)
    (a : AppState) (h : Host)
    (hst : shutdown cfg s.app
      ⟨s.host.nextHandle, s.host.oneShot.filter (fun t => t.handle != hdl),
       s.host.repeating, s.host.calls⟩ = (a, h)) :
    step cfg s (.fireShutdown hdl) = ⟨a, h, false, false⟩ := by
  unfold step
  rw [hcr]
  simp only [hh, hst]
  rfl

theorem step_fireShutdown_unarmed (cfg : Config) (s : Sys) (hdl : Nat)
    (hh : hasHandle s.host.oneShot hdl = false) :
    step cfg s (.fireShutdown hdl) = s := by
  rcases hcr : s.crashed with _ | _
  · unfold step
    rw [hcr]
    simp only [hh]
    rfl
  · exact step_crashed cfg s _ hcr

theorem armCount_cancelCalls (st : AppState) : armCount (cancelCalls st) = 0 := by
  unfold cancelCalls armCount
  split <;> rfl

theorem armCount_append (x y : List HostCall) :
    armCount (x ++ y) = armCount x + armCount y := by
  simp [armCount, List.filter_append]

theorem armCount_cons_nonarm (c : HostCall) (x : List HostCall)
    (hcna : isArmCall c = false) : armCount (c :: x) = armCount x := by
  simp [armCount, List.filter_cons, hcna]

theorem pyIntFloat_not_attr (val : PyVal) :
    pyIntFloat val ≠ .error .attributeError := by
  cases val with
  | none => simp [pyIntFloat]
  | list l => simp [pyIntFloat]
  | str s =>
      unfold pyIntFloat
      rcases h : parseDecimal s with _ | d <;> simp [h]

theorem step_inv (cfg : Config) (s : Sys) (op : Op) (hs : Inv s) :
    Inv (step cfg s op) := by
  obtain ⟨hth, huh, hos, hrp, harm, hrun⟩ := hs
  have hOne : ∀ t ∈ s.host.oneShot, s.app.timer_handle = some t.handle :=
    forall_mem_of_nil hos
  have hRep : ∀ t ∈ s.host.repeating,
      s.app.update_countdown_handle = some t.handle :=
    forall_mem_of_nil hrp
  have hTog : s.app.timer_handle = Option.none ↔
      s.app.update_countdown_handle = Option.none := by
    rw [hth, huh]
  by_cases hcr : s.crashed = true
  · rw [step_crashed cfg s op hcr]
    exact ⟨hth, huh, hos, hrp, harm, hrun⟩
  · have hcr' : s.crashed = false := by
      rwa [Bool.not_eq_true] at hcr
    cases op with
    | start now val =>
        cases hv : pyIntFloat val with
        | error e =>
            cases e with
            | valueError =>
                rw [step_start_ok cfg s now val hcr' _ _
                  (start_timer_valueError cfg now val s.app s.host hOne hRep
                    hTog hv)]
                refine ⟨hth, huh, rfl, rfl, ?_, ?_⟩
                · show armCount (.logError (.convertFailed val) ::
                    .getState cfg.number_entity ::
                    (cancelCalls s.app ++ s.host.calls)) = 0
                  rw [armCount_cons_nonarm (.logError (.convertFailed val))
                      _ rfl,
                    armCount_cons_nonarm (.getState cfg.number_entity) _ rfl,
                    armCount_append, armCount_cancelCalls, harm]
                · show parsedPositive val = false
                  exact parsedPositive_err val _ hv
            | typeError =>
                rw [step_start_exc cfg s now val hcr' _ _ _
                  (start_timer_typeError cfg now val s.app s.host hOne hRep
                    hTog hv)]
                refine ⟨hth, huh, rfl, rfl, ?_, rfl⟩
                show armCount (.getState cfg.number_entity ::
                  (cancelCalls s.app ++ s.host.calls)) = 0
                rw [armCount_cons_nonarm (.getState cfg.number_entity) _ rfl,
                  armCount_append, armCount_cancelCalls, harm]
            | attributeError => exact absurd hv (pyIntFloat_not_attr val)
        | ok m =>
            by_cases hm : 0 < m
            · rw [step_start_exc cfg s now val hcr' _ _ _
                (start_timer_pos_raises cfg now val s.app s.host m hOne hRep
                  hTog hv hm)]
              refine ⟨hth, huh, rfl, rfl, ?_, rfl⟩
              show armCount (.getState cfg.number_entity ::
                (cancelCalls s.app ++ s.host.calls)) = 0
              rw [armCount_cons_nonarm (.getState cfg.number_entity) _ rfl,
                armCount_append, armCount_cancelCalls, harm]
            · rw [step_start_ok cfg s now val hcr' _ _
                (start_timer_ok_nonpos cfg now val s.app s.host m hOne hRep
                  hTog hv hm)]
              refine ⟨hth, huh, rfl, rfl, ?_, ?_⟩
              · show armCount (.getState cfg.number_entity ::
                  (cancelCalls s.app ++ s.host.calls)) = 0
                rw [armCount_cons_nonarm (.getState cfg.number_entity) _ rfl,
                  armCount_append, armCount_cancelCalls, harm]
              · show parsedPositive val = false
                exact parsedPositive_nonpos val m hv hm
    | stop =>
        rw [step_stop_ok cfg s hcr' _ _ (stop_timer_idle cfg s.app s.host hth)]
        exact ⟨hth, huh, hos, hrp, harm, rfl⟩
    | fireTick hdl =>
        have hh : hasHandle s.host.repeating hdl = false := by
          rw [hrp]
          rfl
        rw [step_fireTick_unarmed cfg s hdl hh]
        exact ⟨hth, huh, hos, hrp, harm, hrun⟩
    | fireShutdown hdl =>
        have hh : hasHandle s.host.oneShot hdl = false := by
          rw [hos]
          rfl
        rw [step_fireShutdown_unarmed cfg s hdl hh]
        exact ⟨hth, huh, hos, hrp, harm, hrun⟩

theorem initSys_inv : Inv initSys :=
  ⟨rfl, rfl, rfl, rfl, rfl, rfl⟩

theorem foldl_inv (cfg : Config) (ops : List Op) (s : Sys) (hs : Inv s) :
    Inv (ops.foldl (step cfg) s) := by
  induction ops generalizing s with
  | nil => exact hs
  | cons op ops ih => exact ih _ (step_inv cfg s op hs)

theorem reach_inv (cfg : Config) (ops : List Op) : Inv (reach cfg ops) :=
  foldl_inv cfg ops initSys initSys_inv

theorem sys_eq_mk (X : Sys) (a : AppState) (h : Host) (r c : Bool)
    (h1 : X.app = a) (h2 : X.host = h) (h3 : X.running = r)
    (h4 : X.crashed = c) : X = ⟨a, h, r, c⟩ := by
  obtain ⟨x1, x2, x3, x4⟩ := X
  subst h1 h2 h3 h4
  rfl

/-! ### The claims -/

/-- Claim C9 (code bug): during initialization, the duration-source and
display-sink identifiers are each queried for existence individually, but
the whole `shutdown_entities` list is passed to `check_entities` as a single
argument, so the host is asked once about the list value itself and never
about the individual target identifiers — contradicting the claim that
every identifier in `targetEntities` is queried individually.  Evaluated at
the concrete configuration `cfgEx` with targets
`["switch.a", "light.b", "media.c"]`. -/
theorem claim9_targets_checked_as_list :
    ((initChecks cfgEx (fun _ => true)).2.calls.filter isExistsQuery =
      [.existsQuery (.list ["switch.a", "light.b", "media.c"]),
       .existsQuery (.str "sensor.t"),
       .existsQuery (.str "input_number.t")]) ∧
    HostCall.existsQuery (.str "switch.a") ∉
      (initChecks cfgEx (fun _ => true)).2.calls ∧
    HostCall.existsQuery (.str "light.b") ∉
      (initChecks cfgEx (fun _ => true)).2.calls := by
  decide

/-- Claim C4 counterexample: when the duration source holds `None` (a
missing value), `int(float(None))` raises `TypeError`, which the source's
`except ValueError` does not catch, so `start` does raise — refuting "a
missing/None value … does not raise or crash the host". -/
theorem claim4_counterexample :
    (start_timer cfgEx 0 PyVal.none
      ⟨Option.none, Option.none, 0⟩ initHost).2.2 = some PyExc.typeError ∧
    (reach cfgEx [.start 0 PyVal.none]).crashed = true := by
  decide

/-- Claim C1 (code bug): in every reachable state, a `start` whose duration
parses to `m > 0` sets `shutdown_counter` to `m` (line 129) and then raises
`AttributeError` evaluating the f-string at line 132 (`self.shutdown_entity`
is never assigned; `initialize` assigns `shutdown_entities`, line 84): the
arming tail at lines 134–137 never runs, so no deferred shutdown and no
repeating tick are armed, nothing is published to the display, the handle
stays `None`, and the instance never reaches the Running state — against
the claim, which says all of those happen. -/
theorem claim1_start_positive_raises (cfg : Config) (ops : List Op)
    (now : Int) (val : PyVal) (m : Int)
    (hok : pyIntFloat val = .ok m) (hm : 0 < m)
    (hc : (reach cfg ops).crashed = false) :
    (step cfg (reach cfg ops) (.start now val)).app.shutdown_counter = m ∧
    (step cfg (reach cfg ops) (.start now val)).crashed = true ∧
    (step cfg (reach cfg ops) (.start now val)).host.oneShot = [] ∧
    (step cfg (reach cfg ops) (.start now val)).host.repeating = [] ∧
    armCount (step cfg (reach cfg ops) (.start now val)).host.calls = 0 ∧
    displayWrites cfg (step cfg (reach cfg ops) (.start now val)).host.calls
      = displayWrites cfg (reach cfg ops).host.calls ∧
    (step cfg (reach cfg ops) (.start now val)).app.timer_handle
      = Option.none ∧
    (step cfg (reach cfg ops) (.start now val)).running = false := by
  obtain ⟨hth, huh, hos, hrp, harm, hrun⟩ := reach_inv cfg ops
  have hOne : ∀ t ∈ (reach cfg ops).host.oneShot,
      (reach cfg ops).app.timer_handle = some t.handle :=
    forall_mem_of_nil hos
  have hRep : ∀ t ∈ (reach cfg ops).host.repeating,
      (reach cfg ops).app.update_countdown_handle = some t.handle :=
    forall_mem_of_nil hrp
  have hTog : (reach cfg ops).app.timer_handle = Option.none ↔
      (reach cfg ops).app.update_countdown_handle = Option.none := by
    rw [hth, huh]
  have hCC : cancelCalls (reach cfg ops).app = [] := by
    simp [cancelCalls, hth]
  rw [step_start_exc cfg (reach cfg ops) now val hc _ _ _
    (start_timer_pos_raises cfg now val (reach cfg ops).app
      (reach cfg ops).host m hOne hRep hTog hok hm)]
  refine ⟨rfl, rfl, rfl, rfl, ?_, ?_, hth, rfl⟩
  · show armCount (.getState cfg.number_entity ::
      (cancelCalls (reach cfg ops).app ++ (reach cfg ops).host.calls)) = 0
    rw [armCount_cons_nonarm (.getState cfg.number_entity) _ rfl,
      armCount_append, armCount_cancelCalls, harm]
  · show displayWrites cfg (.getState cfg.number_entity ::
      (cancelCalls (reach cfg ops).app ++ (reach cfg ops).host.calls)) = _
    rw [hCC]
    rfl

/-- Claim C1 witness: starting with duration value "3" from the initial
state sets the counter to 3, raises (crashes the callback), and arms
nothing. -/
theorem claim1_witness :
    (step cfgEx (reach cfgEx []) (.start 0 (.str "3"))).app.shutdown_counter
        = 3 ∧
    (step cfgEx (reach cfgEx []) (.start 0 (.str "3"))).crashed = true ∧
    (step cfgEx (reach cfgEx []) (.start 0 (.str "3"))).host.oneShot
        = [] := by
  have h := claim1_start_positive_raises cfgEx [] 0 (.str "3") 3 rfl
    (by decide) (by decide)
  exact ⟨h.1, h.2.1, h.2.2.1⟩

/-- Claim C2 (code bug): the per-tick body (`update_countdown`) does
decrement the counter by exactly one, but the claimed duration-3 display
sequence can never occur: `start` with value "3" raises `AttributeError`
at line 132 before the first display write, so nothing is ever published
("3 min" included) and the repeating tick is never armed, leaving the
tick callback with no way to ever run. -/
theorem claim2_tick_never_runs :
    (∀ (cfg : Config) (st : AppState) (h : Host),
      (update_countdown cfg st h).1.shutdown_counter
        = st.shutdown_counter - 1) ∧
    (reach cfgEx [.start 0 (.str "3")]).crashed = true ∧
    displayWrites cfgEx (reach cfgEx [.start 0 (.str "3")]).host.calls
      = [] ∧
    (reach cfgEx [.start 0 (.str "3")]).host.repeating = [] := by
  refine ⟨?_, by decide, by decide, by decide⟩
  intro cfg st h
  simp only [update_countdown]
  split <;> rfl

/-- Claim C3 (code bug): in every reachable state the stored
`timer_handle` is `None` — line 134, the only assignment of a non-`None`
handle, is unreachable because line 132 raises first — so the guard at
line 148 always fails and `stop` is always a no-op (no host calls, no
raise): the claimed Running-case behaviour (cancel both timers, publish
"off", clear handles) is dead code.  Moreover the dead branch itself,
exercised on an artificial state with a handle set, performs its effects
and then raises the same `AttributeError` at line 154. -/
theorem claim3_stop_always_noop :
    (∀ (cfg : Config) (ops : List Op),
      (reach cfg ops).app.timer_handle = Option.none ∧
      stop_timer cfg (reach cfg ops).app (reach cfg ops).host
        = ((reach cfg ops).app, (reach cfg ops).host, Option.none)) ∧
    (stop_timer cfgEx ⟨some 0, some 1, 5⟩ initHost).2.2
      = some PyExc.attributeError := by
  refine ⟨?_, by decide⟩
  intro cfg ops
  exact ⟨(reach_inv cfg ops).thNone,
    stop_timer_idle cfg _ _ (reach_inv cfg ops).thNone⟩

theorem start_step_nonarming (cfg : Config) (ops : List Op) (now : Int)
    (val : PyVal) (hv : ∀ m, pyIntFloat val = .ok m → m ≤ 0)
    (hc : (reach cfg ops).crashed = false) :
    (step cfg (reach cfg ops) (.start now val)).host.oneShot = [] ∧
    (step cfg (reach cfg ops) (.start now val)).host.repeating = [] ∧
    (step cfg (reach cfg ops) (.start now val)).running = false ∧
    armCount (step cfg (reach cfg ops) (.start now val)).host.calls
      = armCount (reach cfg ops).host.calls ∧
    (step cfg (reach cfg ops) (.start now val)).app.shutdown_counter
      = (reach cfg ops).app.shutdown_counter := by
  obtain ⟨hth, huh, hos, hrp, harm, hrun⟩ := reach_inv cfg ops
  have hOne : ∀ t ∈ (reach cfg ops).host.oneShot,
      (reach cfg ops).app.timer_handle = some t.handle :=
    forall_mem_of_nil hos
  have hRep : ∀ t ∈ (reach cfg ops).host.repeating,
      (reach cfg ops).app.update_countdown_handle = some t.handle :=
    forall_mem_of_nil hrp
  have hTog : (reach cfg ops).app.timer_handle = Option.none ↔
      (reach cfg ops).app.update_countdown_handle = Option.none := by
    rw [hth, huh]
  cases hok : pyIntFloat val with
  | ok m =>
      have hm : ¬ 0 < m := by
        have := hv m hok
        omega
      rw [step_start_ok cfg (reach cfg ops) now val hc _ _
        (start_timer_ok_nonpos cfg now val (reach cfg ops).app
          (reach cfg ops).host m hOne hRep hTog hok hm)]
      refine ⟨rfl, rfl, ?_, ?_, rfl⟩
      · exact parsedPositive_nonpos val m hok hm
      · show armCount (.getState cfg.number_entity ::
          (cancelCalls (reach cfg ops).app ++ (reach cfg ops).host.calls)) = _
        rw [armCount_cons_nonarm (.getState cfg.number_entity) _ rfl,
          armCount_append, armCount_cancelCalls]
        omega
  | error e =>
      cases e with
      | valueError =>
          rw [step_start_ok cfg (reach cfg ops) now val hc _ _
            (start_timer_valueError cfg now val (reach cfg ops).app
              (reach cfg ops).host hOne hRep hTog hok)]
          refine ⟨rfl, rfl, ?_, ?_, rfl⟩
          · exact parsedPositive_err val _ hok
          · show armCount (.logError (.convertFailed val) ::
              .getState cfg.number_entity ::
              (cancelCalls (reach cfg ops).app ++ (reach cfg ops).host.calls))
                = _
            rw [armCount_cons_nonarm (.logError (.convertFailed val)) _ rfl,
              armCount_cons_nonarm (.getState cfg.number_entity) _ rfl,
              armCount_append, armCount_cancelCalls]
            omega
      | typeError =>
          rw [step_start_exc cfg (reach cfg ops) now val hc _ _ _
            (start_timer_typeError cfg now val (reach cfg ops).app
              (reach cfg ops).host hOne hRep hTog hok)]
          refine ⟨rfl, rfl, rfl, ?_, rfl⟩
          show armCount (.getState cfg.number_entity ::
            (cancelCalls (reach cfg ops).app ++ (reach cfg ops).host.calls))
              = _
          rw [armCount_cons_nonarm (.getState cfg.number_entity) _ rfl,
            armCount_append, armCount_cancelCalls]
          omega
      | attributeError => exact absurd hok (pyIntFloat_not_attr val)

/-- Claim C5: in every reachable state, a `start` whose duration parses to
a value ≤ 0 (including "0") or fails to parse arms no deferred shutdown and
no repeating tick, makes no scheduling (arming) call, leaves the counter
unchanged, and leaves the instance in the Idle state. -/
theorem claim5_start_nonpositive_noop (cfg : Config) (ops : List Op)
    (now : Int) (val : PyVal)
    (hv : ∀ m, pyIntFloat val = .ok m → m ≤ 0)
    (hc : (reach cfg ops).crashed = false) :
    (step cfg (reach cfg ops) (.start now val)).host.oneShot = [] ∧
    (step cfg (reach cfg ops) (.start now val)).host.repeating = [] ∧
    (step cfg (reach cfg ops) (.start now val)).running = false ∧
    armCount (step cfg (reach cfg ops) (.start now val)).host.calls
      = armCount (reach cfg ops).host.calls ∧
    (step cfg (reach cfg ops) (.start now val)).app.shutdown_counter
      = (reach cfg ops).app.shutdown_counter :=
  start_step_nonarming cfg ops now val hv hc

/-- Claim C5 witness: starting with duration value "0" from the initial
state arms nothing and stays Idle. -/
theorem claim5_witness :
    (step cfgEx (reach cfgEx []) (.start 0 (.str "0"))).host.oneShot = [] ∧
    (step cfgEx (reach cfgEx []) (.start 0 (.str "0"))).host.repeating = [] ∧
    (step cfgEx (reach cfgEx []) (.start 0 (.str "0"))).running = false ∧
    armCount (step cfgEx (reach cfgEx []) (.start 0 (.str "0"))).host.calls
      = armCount (reach cfgEx []).host.calls ∧
    (step cfgEx (reach cfgEx []) (.start 0 (.str "0"))).app.shutdown_counter
      = (reach cfgEx []).app.shutdown_counter :=
  claim5_start_nonpositive_noop cfgEx [] 0 (.str "0")
    (by
      intro m h
      rw [show pyIntFloat (PyVal.str "0") = Except.ok 0 from rfl] at h
      cases h
      omega)
    (by decide)

/-- Claim C4 (amended): for every non-numeric string value the claim holds
— `start` logs a conversion error, treats the duration as 0 (arming
nothing), leaves the counter unchanged, and does not raise; but for a
missing/`None` value, `start` raises an uncaught `TypeError` (see the
counterexample), so the original claim fails for None values. -/
theorem claim4_unparsable_string_amended (cfg : Config) (ops : List Op)
    (now : Int) (str : String)
    (hv : pyIntFloat (.str str) = .error .valueError)
    (hc : (reach cfg ops).crashed = false) :
    (step cfg (reach cfg ops) (.start now (.str str))).crashed = false ∧
    (step cfg (reach cfg ops) (.start now (.str str))).running = false ∧
    (step cfg (reach cfg ops) (.start now (.str str))).host.oneShot = [] ∧
    (step cfg (reach cfg ops) (.start now (.str str))).host.repeating = [] ∧
    (step cfg (reach cfg ops) (.start now (.str str))).app.shutdown_counter
      = (reach cfg ops).app.shutdown_counter ∧
    (∃ p, (step cfg (reach cfg ops) (.start now (.str str))).host.calls
        = p ++ (reach cfg ops).host.calls ∧
      HostCall.logError (.convertFailed (.str str)) ∈ p) := by
  obtain ⟨hth, huh, hos, hrp, harm, hrun⟩ := reach_inv cfg ops
  have hOne : ∀ t ∈ (reach cfg ops).host.oneShot,
      (reach cfg ops).app.timer_handle = some t.handle :=
    forall_mem_of_nil hos
  have hRep : ∀ t ∈ (reach cfg ops).host.repeating,
      (reach cfg ops).app.update_countdown_handle = some t.handle :=
    forall_mem_of_nil hrp
  have hTog : (reach cfg ops).app.timer_handle = Option.none ↔
      (reach cfg ops).app.update_countdown_handle = Option.none := by
    rw [hth, huh]
  rw [step_start_ok cfg (reach cfg ops) now (.str str) hc _ _
    (start_timer_valueError cfg now (.str str) (reach cfg ops).app
      (reach cfg ops).host hOne hRep hTog hv)]
  refine ⟨rfl, parsedPositive_err _ _ hv, rfl, rfl, rfl,
    [.logError (.convertFailed (.str str)), .getState cfg.number_entity]
      ++ cancelCalls (reach cfg ops).app, by simp, by simp⟩

/-- Claim C4 witness: the non-numeric string "abc" is handled without a
raise, logging an error and arming nothing. -/
theorem claim4_witness :
    (step cfgEx (reach cfgEx []) (.start 0 (.str "abc"))).crashed = false ∧
    (step cfgEx (reach cfgEx []) (.start 0 (.str "abc"))).host.oneShot
      = [] := by
  have h := claim4_unparsable_string_amended cfgEx [] 0 "abc" rfl (by decide)
  exact ⟨h.1, h.2.2.1⟩

/-- Claim C6 (code bug): the claimed cancel-then-arm supersede behaviour of
`start` never executes: no reachable trace contains a single arming call
(`run_at`/`run_minutely`, lines 134 and 137 are dead code behind the raise
at line 132) and no timer is ever outstanding, so "at most one deferred
shutdown and one tick outstanding" holds only because the count is always
zero — a start with positive duration crashes instead of superseding
anything. -/
theorem claim6_never_arms :
    (∀ (cfg : Config) (ops : List Op),
      armCount (reach cfg ops).host.calls = 0 ∧
      (reach cfg ops).host.oneShot = [] ∧
      (reach cfg ops).host.repeating = []) ∧
    (reach cfgEx [.start 0 (.str "10")]).crashed = true := by
  refine ⟨?_, by decide⟩
  intro cfg ops
  exact ⟨(reach_inv cfg ops).armZero, (reach_inv cfg ops).oneShotNil,
    (reach_inv cfg ops).repNil⟩

/-- Claim C7 (code bug): the claimed "token non-none iff Running" never
becomes contentful: both handles are `None` in every reachable state (the
only non-`None` assignments, lines 134 and 137, are dead code behind the
raise at line 132), and the instance never reaches the Running state — a
start with positive duration, which the specification says enters Running
with the tokens set, crashes instead. -/
theorem claim7_tokens_never_set :
    (∀ (cfg : Config) (ops : List Op),
      (reach cfg ops).app.timer_handle = Option.none ∧
      (reach cfg ops).app.update_countdown_handle = Option.none ∧
      (reach cfg ops).running = false) ∧
    (reach cfgEx [.start 0 (.str "2")]).crashed = true := by
  refine ⟨?_, by decide⟩
  intro cfg ops
  exact ⟨(reach_inv cfg ops).thNone, (reach_inv cfg ops).uhNone,
    (reach_inv cfg ops).notRunning⟩

/-- Claim C8 (code bug): the deferred shutdown can never fire — no
reachable state has it armed, because `run_at` (line 134) is unreachable
behind the raise at line 132 — so the claimed firing event is dead; the
`shutdown` body itself (lines 171–175, which uses the correctly-named
plural attribute) would, whenever invoked, turn off each target once in
order, write nothing to the display, and leave the app state untouched. -/
theorem claim8_shutdown_never_fires :
    (∀ (cfg : Config) (ops : List Op), (reach cfg ops).host.oneShot = []) ∧
    (∀ (cfg : Config) (st : AppState) (h : Host),
      (shutdown cfg st h).1 = st ∧
      ∃ p, (shutdown cfg st h).2.calls = p ++ h.calls ∧
        (p.filterMap turnOffTarget).reverse = cfg.shutdown_entities ∧
        displayWrites cfg p = []) := by
  constructor
  · intro cfg ops
    exact (reach_inv cfg ops).oneShotNil
  · intro cfg st h
    rw [shutdown_spec]
    exact ⟨rfl, shutdownTrace cfg.shutdown_entities, rfl,
      by rw [shutdownTrace_turnOffs, List.reverse_reverse],
      shutdownTrace_noDisplay cfg _⟩

end SDT
